import Mathlib

/-!
Verification of the prompt-construction module
`agenthub/world_model_agent/prompt.py` of the OpenDevin world-model agent.

The module builds textual prompts for an LLM-driven browsing agent:
prompt fragments carry a visibility flag, oversized fragments shrink by
deleting trailing lines, and a main assembler picks a rendering mode from
the relative lengths of four parallel histories.

Modelling conventions:
  - Python `str` is Lean `String`; line manipulation is done on the
    underlying character list.  Texts produced by this module only ever
    use the LF character as a line break, so `splitlines` is modelled
    for LF-only texts.
  - Python `float` arithmetic on the shrink fraction is modelled with
    exact rationals; `int()` is truncation toward zero.
  - a fragment's `_visible` flag may be a bool or a zero-argument
    callable evaluated at each use; the model stores the value the flag
    evaluates to at the present moment (`is_visible`), and an externally
    caused change of a callable flag is modelled by a record update.
  - a constructor or method that can raise (assertion failure, index
    error) is modelled with `Option`, `none` meaning "raises".
-/

namespace WMAgent

/-- Python `int()` applied to an exact rational value: truncation toward zero. -/
def pyInt (q : ℚ) : ℤ := if 0 ≤ q then ⌊q⌋ else ⌈q⌉

/-- Python list slicing `l[:n]` for an integer `n`; a negative `n` counts
from the end of the list, and out-of-range values clamp. -/
def pyTake {α : Type} (n : ℤ) (l : List α) : List α :=
  if 0 ≤ n then l.take n.toNat else l.take ((l.length : ℤ) + n).toNat

/-- Python `str.splitlines` at character level, for texts whose only line
break character is LF (the only line break this module produces): no entry
for the empty text, and no trailing empty entry for a trailing LF. -/
def pylines : List Char → List (List Char)
  | [] => []
  | c :: cs =>
    if c = '\n' then [] :: pylines cs
    else
      match pylines cs with
      | [] => [[c]]
      | l :: ls => (c :: l) :: ls

/-- Python `str.splitlines` on a string (LF-only texts). -/
def pySplitlines (s : String) : List String := (pylines s.data).map String.mk

/-- Python `sep.join(xs)`. -/
def pyJoin (sep : String) : List String → String
  | [] => ""
  | [x] => x
  | x :: xs => x ++ sep ++ pyJoin sep xs

/-- Number of lines of a text, in Python's `len(s.splitlines())` sense. -/
def lineCount (s : String) : ℕ := (pySplitlines s).length

/-- Character-level form of joining with LF (the data of `pyJoin` with
separator LF). -/
def joinChar : List (List Char) → List Char
  | [] => []
  | [l] => l
  | l :: ls => l ++ '\n' :: joinChar ls

/-- Class `PromptElement`: a prompt fragment with a visibility flag.  In the
source the flag `_visible` may be a bool or a zero-argument callable; the
field `is_visible` holds the value the flag (or its call) evaluates to at
the present moment, exactly what the `is_visible` property returns. -/
structure PromptElement where
  is_visible : Bool
  _prompt : String
  _abstract_ex : String
  _concrete_ex : String

/-- Method `PromptElement._hide`: the value if visible, else the empty string. -/
def PromptElement._hide (e : PromptElement) (value : String) : String :=
  if e.is_visible then value else ""

/-- Property `PromptElement.prompt`. -/
def PromptElement.prompt (e : PromptElement) : String := e._hide e._prompt

/-- Property `PromptElement.abstract_ex`. -/
def PromptElement.abstract_ex (e : PromptElement) : String := e._hide e._abstract_ex

/-- Property `PromptElement.concrete_ex`. -/
def PromptElement.concrete_ex (e : PromptElement) : String := e._hide e._concrete_ex

/-- Class `Trunkater`: a shrinkable fragment.  `is_visible` is the current
value of the visibility flag, as in `PromptElement`. -/
structure Trunkater where
  is_visible : Bool
  shrink_speed : ℚ
  start_trunkate_iteration : ℕ
  shrink_calls : ℕ
  deleted_lines : ℤ
  _prompt : String

/-- Rendering of a `Trunkater` (the inherited `prompt` property). -/
def Trunkater.prompt (t : Trunkater) : String :=
  if t.is_visible then t._prompt else ""

/-- Method `Trunkater.shrink`: once visible and called at least
`start_trunkate_iteration` times, drop a fraction of the trailing lines and
append a marker reporting the cumulative number of deleted lines; every
call increments `shrink_calls`. -/
def Trunkater.shrink (t : Trunkater) : Trunkater :=
  if t.is_visible ∧ t.start_trunkate_iteration ≤ t.shrink_calls then
    let lines := pySplitlines t._prompt
    let new_line_count : ℤ := pyInt ((lines.length : ℚ) * (1 - t.shrink_speed))
    let deleted : ℤ := t.deleted_lines + ((lines.length : ℤ) - new_line_count)
    { t with
      deleted_lines := deleted
      shrink_calls := t.shrink_calls + 1
      _prompt := pyJoin "\n" (pyTake new_line_count lines)
                   ++ "\n... Deleted " ++ toString deleted
                   ++ " lines to reduce prompt size." }
  else
    { t with shrink_calls := t.shrink_calls + 1 }

/-- The state of a trunkater whose callable visibility flag now evaluates to
true (the flag itself is external mutable state; this models its change). -/
def setVisible (t : Trunkater) : Trunkater :=
  { t with is_visible := true }

/-- Constructor of class `HTML` (a `Trunkater` with threshold 5). -/
def mkHTML (html : String) (visible : Bool) (pfx : String) : Trunkater :=
  { is_visible := visible
    shrink_speed := 3 / 10
    start_trunkate_iteration := 5
    shrink_calls := 0
    deleted_lines := 0
    _prompt := "\n" ++ pfx ++ "HTML:\n" ++ html ++ "\n" }

/-- Constructor of class `AXTree` (a `Trunkater` with threshold 10).
`coord_type` is `some "center"`, `some "box"`, or `none` for any other
value the source may pass (`None` or `False`). -/
def mkAXTree (ax_tree : String) (visible : Bool) (coord_type : Option String)
    (pfx : String) : Trunkater :=
  let coord_note : String :=
    if coord_type = some "center" then
      "Note: center coordinates are provided in parenthesis and are\n  relative to the top left corner of the page.\n\n"
    else if coord_type = some "box" then
      "Note: bounding box of each object are provided in parenthesis and are\n  relative to the top left corner of the page.\n\n"
    else ""
  { is_visible := visible
    shrink_speed := 3 / 10
    start_trunkate_iteration := 10
    shrink_calls := 0
    deleted_lines := 0
    _prompt := "\n" ++ pfx ++ "AXTree (you may only interact with elements in this tree):\n"
                 ++ coord_note ++ ax_tree ++ "\n" }

/-- Constructor of class `Error`.  In the source the visibility argument is
the error string itself, used for its truthiness. -/
def mkError (error : String) (visible : Bool) (pfx : String) : PromptElement :=
  { is_visible := visible
    _prompt := "\n" ++ pfx ++ "Error from previous action:\n" ++ error ++ "\n"
    _abstract_ex := ""
    _concrete_ex := "" }

/-- One observation of the browser: the fields of the observation mapping
that this module reads. -/
structure Obs where
  axtree_txt : String
  last_action_error : String

/-- Method `MyMainPrompt.get_obs`: render the current observation only
(accessibility tree plus error banner; the error fragment is visible
exactly when the error string is non-empty, by Python truthiness). -/
def get_obs (obs : Obs) : String :=
  "\n# Observation of current step:\nAXSTART"
    ++ (mkAXTree obs.axtree_txt true none "## ").prompt
    ++ "AXEND"
    ++ (mkError obs.last_action_error (obs.last_action_error != "") "## ").prompt
    ++ "\n\n"

/-- Method `MyMainPrompt.get_obs_state`. -/
def get_obs_state (obs : Obs) (state : String) : String :=
  get_obs obs ++ "\n## Current State:\n" ++ state ++ "\n"

/-- Rendering of an optional string inside a Python f-string (`None` prints
as the four letters None). -/
def pyStr : Option String → String
  | none => "None"
  | some s => s

/-- Method `MyMainPrompt.get_obs_state_strat`. -/
def get_obs_state_strat (obs : Obs) (state : String) (strategy : Option String) : String :=
  get_obs_state obs state ++ "\n## Current Strategy:\n" ++ pyStr strategy ++ "\n"

/-- Method `MyMainPrompt.get_state`. -/
def get_state (state : String) : String :=
  "\n## Current State:\n" ++ state ++ "\n\n"

/-- Method `MyMainPrompt.get_state_strat`. -/
def get_state_strat (state strategy : String) : String :=
  get_state state ++ "\n## Current Strategy:\n" ++ strategy ++ "\n"

/-- Method `MyMainPrompt.get_history_step` in the only form the history
loop uses (`current_obs` is always `None` there): state always, strategy
and action when present. -/
def get_history_step (state : String) (strategy : Option String)
    (action : Option String) : String :=
  "\n### State:\n" ++ state ++ "\n"
    ++ (match strategy with
        | some sg => "\n### Strategy:\n" ++ sg ++ "\n"
        | none => "")
    ++ (match action with
        | some a => "\n### Action:\n" ++ a ++ "\n"
        | none => "")

/-- The loop body of `MyMainPrompt.get_history`: one rendered step per index
`i` in `range(1, len(states))`.  Under the assertion guarding the method the
indices `i - 1` are in range for `states` and `strategies`, so the `getD`
defaults are never taken; the action is guarded by `i <= len(actions)` as in
the source. -/
def historySteps (states strategies actions : List String) : List String :=
  (List.range' 1 (states.length - 1)).map fun i =>
    get_history_step (states.getD (i - 1) "")
      (some (strategies.getD (i - 1) ""))
      (if i ≤ actions.length then some (actions.getD (i - 1) "") else none)

/-- The string `MyMainPrompt.get_history` returns: header and steps under
`## Step i` headers, joined with LF, plus a trailing LF. -/
def historyString (states strategies actions : List String) : String :=
  pyJoin "\n"
    ("\n# History of interaction with the task:\n"
      :: ((historySteps states strategies actions).enum.map
            (fun p => ["## Step " ++ toString p.1, p.2])).flatten)
    ++ "\n"

/-- Method `MyMainPrompt.get_history`; `none` models the `assert
len(states) == len(strategies) or len(states) == len(strategies) + 1`
failing (an `AssertionError`). -/
def get_history (states strategies actions : List String) : Option String :=
  if states.length = strategies.length ∨ states.length = strategies.length + 1 then
    some (historyString states strategies actions)
  else none

/-- Python slice `l[-n:]`. -/
def takeLast {α : Type} (n : ℕ) (l : List α) : List α := l.drop (l.length - n)

/-- The observable state of a constructed `MyMainPrompt`: the history block
and the current-step text (`none` when no mode predicate matched and the
attribute `self.obs` was never set). -/
structure MyMainPrompt where
  history : String
  obs : Option String

/-- Constructor `MyMainPrompt.__init__`: build the history from the full
lists (whose assertion can raise), then dispatch on the five length-pattern
modes.  The result is `none` exactly when the Python constructor raises. -/
def mkMyMainPrompt (obs_history : List Obs) (states strategies actions : List String)
    (active_strategy : Option String) : Option MyMainPrompt :=
  (get_history states strategies actions).bind fun h0 =>
    if obs_history.length = states.length + 1 ∧ states.length = strategies.length then
      -- encoding: use just the obs; history window of the last 3 steps
      obs_history.getLast?.bind fun o =>
        (get_history (takeLast 3 states) (takeLast 3 strategies)
            (takeLast 3 actions)).bind fun h1 =>
          some { history := h1, obs := some (get_obs o) }
    else if obs_history.length = states.length
        ∧ states.length = strategies.length + 1
        ∧ strategies.length = actions.length then
      -- strategy: use the obs and the state
      obs_history.getLast?.bind fun o =>
        states.getLast?.bind fun st =>
          some { history := h0, obs := some (get_obs_state o st) }
    else if obs_history.length = states.length
        ∧ states.length = strategies.length
        ∧ strategies.length = actions.length + 1 then
      -- policy: use obs, state, and strategy
      obs_history.getLast?.bind fun o =>
        states.getLast?.bind fun st =>
          some { history := h0, obs := some (get_obs_state_strat o st active_strategy) }
    else if obs_history.length ≤ states.length
        ∧ states.length = strategies.length
        ∧ actions.length + 1 ≤ strategies.length then
      -- forward dynamics / action value: use state and strategy
      states.getLast?.bind fun st =>
        strategies.getLast?.bind fun sg =>
          some { history := h0, obs := some (get_state_strat st sg) }
    else if obs_history.length < states.length
        ∧ states.length = strategies.length + 1 then
      -- rollout strategy: use state
      states.getLast?.bind fun st =>
        some { history := h0, obs := some (get_state st) }
    else
      -- no mode matches: self.obs is never assigned, no error is raised
      some { history := h0, obs := none }

/-- Split a character sequence at the first occurrence of `pat`: the part
before the occurrence and the part after it, or `none` if absent. -/
def findSplit (pat : List Char) : List Char → Option (List Char × List Char)
  | [] => none
  | c :: cs =>
    if pat.isPrefixOf (c :: cs) then some ([], (c :: cs).drop pat.length)
    else
      match findSplit pat cs with
      | some pr => some (c :: pr.1, pr.2)
      | none => none

/-- The opening tag of a key, as characters. -/
def tagOpen (key : String) : List Char := '<' :: (key.data ++ ['>'])

/-- The closing tag of a key, as characters. -/
def tagClose (key : String) : List Char := '<' :: '/' :: (key.data ++ ['>'])

/-- Contents of the successive well-formed `<key>...</key>` occurrences of a
text, scanned left to right.  The fuel argument bounds the recursion; each
step consumes at least the opening tag, so the text's length is enough. -/
def extractOccAux (key : String) : ℕ → List Char → List (List Char)
  | 0, _ => []
  | fuel + 1, cs =>
    match findSplit (tagOpen key) cs with
    | none => []
    | some pr =>
      match findSplit (tagClose key) pr.2 with
      | none => []
      | some qr => qr.1 :: extractOccAux key fuel qr.2

/-- All occurrence contents of `<key>...</key>` in a text. -/
def extractOcc (key : String) (text : String) : List String :=
  (extractOccAux key text.data.length text.data).map String.mk

/-- Modelled from the spec: `parse_html_tags_raise` from the module
`agenthub/world_model_agent/utils.py` (not under `src/`), restricted to one
required key with `merge_multiple=True`.  Per the spec it requires the key's
tag to appear at least once, failing with a parse error naming the missing
tag, and merges multiple occurrences of the tag into one value by
concatenation. -/
def parse_html_tags_raise_one (key : String) (text : String) : Except String String :=
  match extractOcc key text with
  | [] => Except.error ("Missing the key <" ++ key ++ "> field")
  | occ => Except.ok (pyJoin "\n" occ)

/-- Method `MyActionSpace._parse_answer`, with the external action space's
`to_python_code` abstracted as a compile function (`Except.error` models a
raised exception): extract the action tag, validate it by compiling it, and
return the raw extracted text, discarding the compiled form; a compile
failure becomes a `ParseError` wrapping the underlying message together with
a remediation hint. -/
def parse_answer (to_python_code : String → Except String String)
    (text_answer : String) : Except String String :=
  match parse_html_tags_raise_one "action" text_answer with
  | Except.error e => Except.error e
  | Except.ok act =>
    match to_python_code act with
    | Except.ok _ => Except.ok act
    | Except.error e =>
      Except.error ("Error while parsing action\n: " ++ e
        ++ "\nMake sure your answer is restricted to the allowed actions.")

/-! Concrete values used by the witness and counterexample theorems. -/

/-- A fresh accessibility-tree-like trunkater over a ten-line text, already
at its truncation threshold. -/
def tDemoTen : Trunkater :=
  { is_visible := true, shrink_speed := 3 / 10, start_trunkate_iteration := 10
    shrink_calls := 10, deleted_lines := 0
    _prompt := "l1\nl2\nl3\nl4\nl5\nl6\nl7\nl8\nl9\nl10" }

/-- A visible trunkater whose text is the empty string, at its threshold. -/
def tDemoEmpty : Trunkater :=
  { is_visible := true, shrink_speed := 3 / 10, start_trunkate_iteration := 10
    shrink_calls := 10, deleted_lines := 0, _prompt := "" }

/-- A freshly constructed, always-visible trunkater over a one-line text. -/
def tDemoOne : Trunkater :=
  { is_visible := true, shrink_speed := 3 / 10, start_trunkate_iteration := 10
    shrink_calls := 0, deleted_lines := 0, _prompt := "x" }

/-- A freshly constructed invisible trunkater over a two-line text. -/
def tDemoHidden : Trunkater :=
  { is_visible := false, shrink_speed := 3 / 10, start_trunkate_iteration := 10
    shrink_calls := 0, deleted_lines := 0, _prompt := "x\ny" }

/-- Demo observations: three observations for the encoding-mode example. -/
def obsDemo3 : List Obs :=
  [{ axtree_txt := "[1] ax one", last_action_error := "" },
   { axtree_txt := "[2] ax two", last_action_error := "" },
   { axtree_txt := "[3] ax three", last_action_error := "" }]

/-- Demo states, strategies and actions for the encoding-mode example
(lengths 2, 2, 1). -/
def stsDemo2 : List String := ["state one", "state two"]

/-- Demo strategies for the encoding-mode example. -/
def stratsDemo2 : List String := ["strat one", "strat two"]

/-- Demo actions for the encoding-mode example. -/
def actsDemo1 : List String := ["click(41)"]

/-- The windowed history string of the encoding-mode example. -/
def histDemoWin : String :=
  (get_history (takeLast 3 stsDemo2) (takeLast 3 stratsDemo2) (takeLast 3 actsDemo1)).getD ""

/-- Demo observations for the strategy-mode example (length 2). -/
def obsDemo2 : List Obs :=
  [{ axtree_txt := "[1] ax one", last_action_error := "" },
   { axtree_txt := "[2] ax two", last_action_error := "boom" }]

/-- Demo strategies for the strategy-mode example (length 1). -/
def stratsDemo1 : List String := ["strat one"]

/-- The full history string of the strategy-mode example. -/
def histDemoFull : String := (get_history stsDemo2 stratsDemo1 actsDemo1).getD ""

/-- The last observation of `obsDemo3`. -/
def oDemoLast : Obs := { axtree_txt := "[3] ax three", last_action_error := "" }

/-- The last observation of `obsDemo2`. -/
def oDemo2Last : Obs := { axtree_txt := "[2] ax two", last_action_error := "boom" }

/-- A demo compile function standing for the external action space's
`to_python_code`: it recognizes exactly the click action used in the
examples (the \x27 escapes are single quotes). -/
def compileDemo : String → Except String String := fun s =>
  if s = "click(\x2741\x27)" then Except.ok "page.click(bid=41)"
  else Except.error ("Invalid action type: " ++ s)

/-! Helper lemmas. -/

theorem data_append (a b : String) : (a ++ b).data = a.data ++ b.data := rfl

theorem shrink_is_visible (t : Trunkater) : t.shrink.is_visible = t.is_visible := by
  unfold Trunkater.shrink; split <;> rfl

theorem shrink_speed_eq (t : Trunkater) : t.shrink.shrink_speed = t.shrink_speed := by
  unfold Trunkater.shrink; split <;> rfl

theorem shrink_start_eq (t : Trunkater) :
    t.shrink.start_trunkate_iteration = t.start_trunkate_iteration := by
  unfold Trunkater.shrink; split <;> rfl

theorem shrink_calls_succ (t : Trunkater) : t.shrink.shrink_calls = t.shrink_calls + 1 := by
  unfold Trunkater.shrink; split <;> rfl

theorem shrink_of_not_trunc (t : Trunkater)
    (h : ¬(t.is_visible = true ∧ t.start_trunkate_iteration ≤ t.shrink_calls)) :
    t.shrink = { t with shrink_calls := t.shrink_calls + 1 } := by
  unfold Trunkater.shrink
  rw [if_neg]
  exact fun hc => h ⟨hc.1, hc.2⟩

theorem shrink_of_trunc (t : Trunkater) (hv : t.is_visible = true)
    (hc : t.start_trunkate_iteration ≤ t.shrink_calls) :
    t.shrink = { t with
      deleted_lines := t.deleted_lines + (((pySplitlines t._prompt).length : ℤ)
        - pyInt (((pySplitlines t._prompt).length : ℚ) * (1 - t.shrink_speed)))
      shrink_calls := t.shrink_calls + 1
      _prompt :=
        pyJoin "\n"
            (pyTake (pyInt (((pySplitlines t._prompt).length : ℚ) * (1 - t.shrink_speed)))
              (pySplitlines t._prompt))
          ++ "\n... Deleted "
          ++ toString (t.deleted_lines + (((pySplitlines t._prompt).length : ℤ)
               - pyInt (((pySplitlines t._prompt).length : ℚ) * (1 - t.shrink_speed))))
          ++ " lines to reduce prompt size." } := by
  unfold Trunkater.shrink
  rw [if_pos ⟨hv, hc⟩]

theorem pyInt_of_nonneg (q : ℚ) (h : 0 ≤ q) : pyInt q = ⌊q⌋ := if_pos h

theorem pyInt_floor_of_le_one (L : ℕ) (f : ℚ) (hf : f ≤ 1) :
    pyInt ((L : ℚ) * (1 - f)) = ⌊(L : ℚ) * (1 - f)⌋ := by
  apply pyInt_of_nonneg
  have h1 : (0 : ℚ) ≤ (L : ℚ) := Nat.cast_nonneg L
  have h2 : (0 : ℚ) ≤ 1 - f := by linarith
  exact mul_nonneg h1 h2

theorem pyInt_le_sub_one (L : ℕ) (f : ℚ) (hL : 1 ≤ L) (hf : 0 < f) :
    pyInt ((L : ℚ) * (1 - f)) ≤ (L : ℤ) - 1 := by
  rcases le_or_lt f 1 with h1 | h1
  · rw [pyInt_floor_of_le_one L f h1]
    have hlt : (L : ℚ) * (1 - f) < (L : ℚ) := by
      have hL' : (0 : ℚ) < (L : ℚ) := by exact_mod_cast hL
      nlinarith
    have hfl : ⌊(L : ℚ) * (1 - f)⌋ < (L : ℤ) := Int.floor_lt.mpr (by push_cast; exact hlt)
    omega
  · have hq : (L : ℚ) * (1 - f) < 0 := by
      have hL' : (0 : ℚ) < (L : ℚ) := by exact_mod_cast hL
      nlinarith
    unfold pyInt
    rw [if_neg (by linarith)]
    have hce : ⌈(L : ℚ) * (1 - f)⌉ ≤ (0 : ℤ) := Int.ceil_le.mpr (by push_cast; linarith)
    omega

theorem pyTake_of_nonneg {α : Type} (n : ℤ) (l : List α) (h : 0 ≤ n) :
    pyTake n l = l.take n.toNat := if_pos h

theorem length_pyTake_le {α : Type} (n : ℤ) (l : List α)
    (h : n ≤ (l.length : ℤ) - 1) (hl : 1 ≤ l.length) :
    (pyTake n l).length ≤ l.length - 1 := by
  unfold pyTake
  split <;> rw [List.length_take] <;> omega

theorem pylines_eq_nil_iff (cs : List Char) : pylines cs = [] ↔ cs = [] := by
  constructor
  · intro h
    cases cs with
    | nil => rfl
    | cons c cs =>
      unfold pylines at h
      split at h
      · exact absurd h (by simp)
      · split at h <;> simp_all
  · intro h; subst h; rfl

theorem pylines_no_newline : ∀ cs : List Char, ∀ l ∈ pylines cs, '\n' ∉ l := by
  intro cs
  induction cs with
  | nil => intro l hl; simp [pylines] at hl
  | cons c cs ih =>
    intro l hl
    unfold pylines at hl
    split at hl
    · rcases List.mem_cons.mp hl with h | h
      · subst h; simp
      · exact ih l h
    · rename_i hc
      rcases h : pylines cs with _ | ⟨l', ls⟩
      · rw [h] at hl
        simp only [List.mem_singleton] at hl
        subst hl
        simp [hc]
        intro he; exact hc he.symm
      · rw [h] at hl
        rcases List.mem_cons.mp hl with h' | h'
        · subst h'
          intro hmem
          rcases List.mem_cons.mp hmem with h'' | h''
          · exact hc h''.symm
          · exact ih l' (h ▸ List.mem_cons_self l' ls) h''
        · exact ih l (h ▸ List.mem_cons_of_mem l' h')

theorem pylines_singleton (cs : List Char) (h1 : cs ≠ []) (h2 : '\n' ∉ cs) :
    pylines cs = [cs] := by
  induction cs with
  | nil => exact absurd rfl h1
  | cons c cs ih =>
    have hc : ¬(c = '\n') := fun h => h2 (h ▸ List.mem_cons_self c cs)
    unfold pylines
    rw [if_neg hc]
    cases cs with
    | nil => rfl
    | cons c' cs' =>
      rw [ih (by simp) (fun h => h2 (List.mem_cons_of_mem c h))]

theorem pylines_append_cons (a b : List Char) (h : '\n' ∉ a) :
    pylines (a ++ '\n' :: b) = a :: pylines b := by
  induction a with
  | nil => simp [pylines]
  | cons c a ih =>
    have hc : ¬(c = '\n') := fun hh => h (hh ▸ List.mem_cons_self c a)
    have ha : '\n' ∉ a := fun hh => h (List.mem_cons_of_mem c hh)
    show pylines (c :: (a ++ '\n' :: b)) = (c :: a) :: pylines b
    conv_lhs => unfold pylines
    rw [if_neg hc, ih ha]

theorem data_pyJoin (ls : List String) :
    (pyJoin "\n" ls).data = joinChar (ls.map String.data) := by
  match ls with
  | [] => rfl
  | [x] => rfl
  | x :: y :: ls =>
    show ((x ++ "\n") ++ pyJoin "\n" (y :: ls)).data
      = x.data ++ '\n' :: joinChar ((y :: ls).map String.data)
    rw [data_append, data_append, data_pyJoin (y :: ls)]
    simp

theorem pylines_joinChar_marker (ls : List (List Char)) (m : List Char)
    (h1 : ∀ l ∈ ls, '\n' ∉ l) (h2 : '\n' ∉ m) (h3 : m ≠ []) :
    pylines (joinChar ls ++ '\n' :: m) = (if ls = [] then [[]] else ls) ++ [m] := by
  match ls with
  | [] =>
    show pylines ('\n' :: m) = [[], m]
    unfold pylines
    rw [if_pos rfl, pylines_singleton m h3 h2]
  | [l] =>
    rw [if_neg (by simp)]
    show pylines (l ++ '\n' :: m) = [l, m]
    rw [pylines_append_cons l m (h1 l (by simp)), pylines_singleton m h3 h2]
  | l :: l' :: ls =>
    rw [if_neg (by simp)]
    show pylines ((l ++ '\n' :: joinChar (l' :: ls)) ++ '\n' :: m) = l :: (l' :: ls) ++ [m]
    rw [List.append_assoc, List.cons_append,
      pylines_append_cons l _ (h1 l (by simp))]
    have hrec := pylines_joinChar_marker (l' :: ls) m
      (fun x hx => h1 x (List.mem_cons_of_mem l hx)) h2 h3
    rw [if_neg (by simp)] at hrec
    rw [hrec]
    simp

theorem digitChar_ne_newline (n : ℕ) : Nat.digitChar n ≠ '\n' := by
  rcases Nat.lt_or_ge n 16 with h | h
  · interval_cases n <;> decide
  · unfold Nat.digitChar
    repeat rw [if_neg (by omega)]
    decide

theorem toDigitsCore_ne_newline (b : ℕ) :
    ∀ (fuel n : ℕ) (ds : List Char), '\n' ∉ ds →
      '\n' ∉ Nat.toDigitsCore b fuel n ds := by
  intro fuel
  induction fuel with
  | zero => intro n ds h; exact h
  | succ fuel ih =>
    intro n ds h
    unfold Nat.toDigitsCore
    dsimp only
    split
    · intro hmem
      rcases List.mem_cons.mp hmem with h' | h'
      · exact digitChar_ne_newline (n % b) h'.symm
      · exact h h'
    · apply ih
      intro hmem
      rcases List.mem_cons.mp hmem with h' | h'
      · exact digitChar_ne_newline (n % b) h'.symm
      · exact h h'

theorem nat_repr_no_newline (n : ℕ) : '\n' ∉ (Nat.repr n).data := by
  show '\n' ∉ Nat.toDigits 10 n
  unfold Nat.toDigits
  exact toDigitsCore_ne_newline 10 (n + 1) n [] (by simp)

theorem toString_int_no_newline (d : ℤ) : '\n' ∉ (toString d).data := by
  cases d with
  | ofNat m => exact nat_repr_no_newline m
  | negSucc m =>
    show '\n' ∉ ("-" ++ Nat.repr (m + 1)).data
    rw [data_append]
    intro hmem
    rcases List.mem_append.mp hmem with h | h
    · simp at h
    · exact nat_repr_no_newline (m + 1) h

theorem pySplitlines_no_newline (s : String) : ∀ l ∈ pySplitlines s, '\n' ∉ l.data := by
  intro l hl
  rcases List.mem_map.mp hl with ⟨cs, hcs, hmk⟩
  have : l.data = cs := by rw [← hmk]
  rw [this]
  exact pylines_no_newline s.data cs hcs

theorem pyTake_subset {α : Type} (n : ℤ) (l : List α) : ∀ x ∈ pyTake n l, x ∈ l := by
  intro x hx
  unfold pyTake at hx
  split at hx <;> exact List.take_subset _ _ hx

theorem data_shrunk_prompt (ls : List String) (d : ℤ) :
    (pyJoin "\n" ls ++ "\n... Deleted " ++ toString d
        ++ " lines to reduce prompt size.").data
      = joinChar (ls.map String.data)
          ++ '\n' :: (("... Deleted " : String).data ++ (toString d).data
                        ++ (" lines to reduce prompt size." : String).data) := by
  rw [data_append, data_append, data_append, data_pyJoin]
  have hlit : ("\n... Deleted " : String).data = '\n' :: ("... Deleted " : String).data := rfl
  rw [hlit]
  simp

theorem marker_no_newline (d : ℤ) :
    '\n' ∉ (("... Deleted " : String).data ++ (toString d).data
              ++ (" lines to reduce prompt size." : String).data) := by
  intro hmem
  rcases List.mem_append.mp hmem with h | h
  · rcases List.mem_append.mp h with h' | h'
    · revert h'; decide
    · exact toString_int_no_newline d h'
  · revert h; decide

theorem lineCount_shrunk (ls : List String) (d : ℤ)
    (hls : ∀ l ∈ ls, '\n' ∉ l.data) :
    lineCount (pyJoin "\n" ls ++ "\n... Deleted " ++ toString d
        ++ " lines to reduce prompt size.")
      = (if ls = [] then 1 else ls.length) + 1 := by
  unfold lineCount pySplitlines
  rw [data_shrunk_prompt, pylines_joinChar_marker (ls.map String.data) _
    (by
      intro l hl
      rcases List.mem_map.mp hl with ⟨x, hx, hdx⟩
      rw [← hdx]
      exact hls x hx)
    (marker_no_newline d)
    (by simp)]
  rw [List.length_map, List.length_append]
  by_cases h : ls = []
  · rw [if_pos h, if_pos (by rw [h]; rfl)]
    rfl
  · rw [if_neg h, if_neg (by simpa using h)]
    simp

theorem lineCount_shrink_of_trunc (t : Trunkater) (hv : t.is_visible = true)
    (hc : t.start_trunkate_iteration ≤ t.shrink_calls) :
    lineCount t.shrink._prompt
      = (if pyTake (pyInt (((pySplitlines t._prompt).length : ℚ) * (1 - t.shrink_speed)))
              (pySplitlines t._prompt) = [] then 1
         else (pyTake (pyInt (((pySplitlines t._prompt).length : ℚ) * (1 - t.shrink_speed)))
                 (pySplitlines t._prompt)).length) + 1 := by
  rw [shrink_of_trunc t hv hc]
  exact lineCount_shrunk _ _
    (fun l hl => pySplitlines_no_newline t._prompt l (pyTake_subset _ _ l hl))

theorem two_le_lineCount_shrink (t : Trunkater) (hv : t.is_visible = true)
    (hc : t.start_trunkate_iteration ≤ t.shrink_calls) :
    2 ≤ lineCount t.shrink._prompt := by
  rw [lineCount_shrink_of_trunc t hv hc]
  split
  · omega
  · rename_i h
    have := List.length_pos.mpr h
    omega

theorem lineCount_shrink_le (t : Trunkater) (hv : t.is_visible = true)
    (hc : t.start_trunkate_iteration ≤ t.shrink_calls) (hf : 0 < t.shrink_speed)
    (h2 : 2 ≤ lineCount t._prompt) :
    lineCount t.shrink._prompt ≤ lineCount t._prompt := by
  rw [lineCount_shrink_of_trunc t hv hc]
  have hL : lineCount t._prompt = (pySplitlines t._prompt).length := rfl
  rw [hL] at h2 ⊢
  have hk : pyInt (((pySplitlines t._prompt).length : ℚ) * (1 - t.shrink_speed))
      ≤ ((pySplitlines t._prompt).length : ℤ) - 1 :=
    pyInt_le_sub_one _ _ (by omega) hf
  have hlen := length_pyTake_le _ (pySplitlines t._prompt) hk (by omega)
  split
  · omega
  · omega

theorem iterate_shrink_fields (n : ℕ) (t : Trunkater) :
    (Trunkater.shrink^[n] t).is_visible = t.is_visible ∧
    (Trunkater.shrink^[n] t).shrink_speed = t.shrink_speed ∧
    (Trunkater.shrink^[n] t).start_trunkate_iteration = t.start_trunkate_iteration ∧
    (Trunkater.shrink^[n] t).shrink_calls = t.shrink_calls + n := by
  induction n with
  | zero => simp
  | succ n ih =>
    rw [Function.iterate_succ_apply', shrink_is_visible, shrink_speed_eq,
      shrink_start_eq, shrink_calls_succ]
    exact ⟨ih.1, ih.2.1, ih.2.2.1, by omega⟩

theorem iterate_shrink_invisible (n : ℕ) (t : Trunkater) (h : t.is_visible = false) :
    Trunkater.shrink^[n] t = { t with shrink_calls := t.shrink_calls + n } := by
  induction n with
  | zero => rfl
  | succ n ih =>
    rw [Function.iterate_succ_apply', ih,
      shrink_of_not_trunc _ (by intro hc; rw [h] at hc; exact absurd hc.1 (by simp))]
    rfl

theorem one_le_length_pySplitlines (s : String) (h : s ≠ "") :
    1 ≤ (pySplitlines s).length := by
  unfold pySplitlines
  rw [List.length_map]
  rcases h' : pylines s.data with _ | ⟨l, ls⟩
  · exfalso
    apply h
    have hd : s.data = [] := (pylines_eq_nil_iff s.data).mp h'
    cases s with
    | mk data =>
      have hdata : data = [] := hd
      subst hdata
      rfl
  · simp

theorem iterate_shrink_noop (n : ℕ) (t : Trunkater) (h0 : t.shrink_calls = 0)
    (h : n ≤ t.start_trunkate_iteration) :
    Trunkater.shrink^[n] t = { t with shrink_calls := n } := by
  induction n with
  | zero =>
    cases t with
    | mk a b c d e f =>
      have hd : d = 0 := h0
      subst hd
      rfl
  | succ n ih =>
    rw [Function.iterate_succ_apply', ih (by omega),
      shrink_of_not_trunc _ (by
        intro hc
        have h2 : t.start_trunkate_iteration ≤ n := hc.2
        omega)]

theorem shrink_empty_deleted (t : Trunkater) (hp : t._prompt = "") :
    t.shrink.deleted_lines = t.deleted_lines := by
  by_cases h : t.is_visible = true ∧ t.start_trunkate_iteration ≤ t.shrink_calls
  · rw [shrink_of_trunc t h.1 h.2]
    show t.deleted_lines + _ = t.deleted_lines
    simp [hp, pySplitlines, pylines, pyInt]
  · rw [shrink_of_not_trunc t h]

theorem shrink_empty_marker (t : Trunkater) (hp : t._prompt = "")
    (hv : t.is_visible = true) (hc : t.start_trunkate_iteration ≤ t.shrink_calls) :
    t.shrink._prompt = "\n... Deleted " ++ toString t.deleted_lines
      ++ " lines to reduce prompt size." := by
  rw [shrink_of_trunc t hv hc]
  show pyJoin "\n" _ ++ "\n... Deleted " ++ _ ++ _ = _
  simp [hp, pySplitlines, pylines, pyInt, pyTake, pyJoin]

/-! Claim theorems. -/

/-- C2: for a truncating fragment whose text has N lines and shrink fraction
f at most 1, one shrink call made past the threshold while the fragment is
visible, starting from a zero deleted-line counter, leaves exactly
floor(N*(1-f)) of the original lines followed by the marker line, and both
the marker and the deleted-line counter report exactly N - floor(N*(1-f))
deleted lines. -/
theorem trunkater_first_shrink (t : Trunkater) (hv : t.is_visible = true)
    (hc : t.start_trunkate_iteration ≤ t.shrink_calls)
    (hd : t.deleted_lines = 0) (hf : t.shrink_speed ≤ 1) :
    t.shrink._prompt
      = pyJoin "\n" ((pySplitlines t._prompt).take
            (⌊((pySplitlines t._prompt).length : ℚ) * (1 - t.shrink_speed)⌋).toNat)
          ++ "\n... Deleted "
          ++ toString (((pySplitlines t._prompt).length : ℤ)
               - ⌊((pySplitlines t._prompt).length : ℚ) * (1 - t.shrink_speed)⌋)
          ++ " lines to reduce prompt size."
      ∧ t.shrink.deleted_lines
          = ((pySplitlines t._prompt).length : ℤ)
              - ⌊((pySplitlines t._prompt).length : ℚ) * (1 - t.shrink_speed)⌋ := by
  rw [shrink_of_trunc t hv hc]
  rw [pyInt_floor_of_le_one _ _ hf,
    pyTake_of_nonneg _ _ (Int.floor_nonneg.mpr (mul_nonneg (Nat.cast_nonneg _) (by linarith)))]
  rw [hd]
  constructor
  · show pyJoin "\n" _ ++ "\n... Deleted " ++ toString ((0 : ℤ) + _) ++ _ = _
    rw [zero_add]
  · show (0 : ℤ) + _ = _
    rw [zero_add]

/-- C2 witness: the theorem applied to a ten-line fragment at its threshold,
with shrink fraction 3/10: seven original lines remain and the marker
reports 3 deleted lines. -/
theorem trunkater_first_shrink_witness :
    tDemoTen.is_visible = true ∧
    tDemoTen.start_trunkate_iteration ≤ tDemoTen.shrink_calls ∧
    tDemoTen.deleted_lines = 0 ∧ tDemoTen.shrink_speed ≤ 1 ∧
    tDemoTen.shrink._prompt
      = "l1\nl2\nl3\nl4\nl5\nl6\nl7\n... Deleted 3 lines to reduce prompt size." ∧
    tDemoTen.shrink.deleted_lines = 3 := by
  have h := trunkater_first_shrink tDemoTen rfl (by decide) rfl (by norm_num [tDemoTen])
  have hlen : (pySplitlines tDemoTen._prompt).length = 10 := by decide
  rw [hlen] at h
  have hfl : ⌊((10 : ℕ) : ℚ) * (1 - tDemoTen.shrink_speed)⌋ = 7 := by
    norm_num [tDemoTen]
  rw [hfl] at h
  exact ⟨rfl, by decide, rfl, by norm_num [tDemoTen], h.1.trans (by decide),
    h.2.trans (by decide)⟩

/-- C4 counterexample: a visible empty-text trunkater at its threshold has
its text changed by a shrink call (the marker line is appended), so shrink
on an empty text is not a no-op on the text. -/
theorem empty_shrink_changes_text_cex :
    tDemoEmpty._prompt = "" ∧
    tDemoEmpty.shrink._prompt = "\n... Deleted 0 lines to reduce prompt size." ∧
    tDemoEmpty.shrink._prompt ≠ tDemoEmpty._prompt := by
  have hm := shrink_empty_marker tDemoEmpty rfl rfl (by decide)
  refine ⟨rfl, hm.trans (by decide), ?_⟩
  rw [hm]
  decide

/-- C4 (amended): a shrink call on a fragment whose text is the empty string
removes 0 lines (the deleted-line counter is unchanged); the text itself is
unchanged when the call is invisible or before the threshold, but a visible
post-threshold call replaces it with the bare marker line reporting the
cumulative deleted count. -/
theorem empty_shrink_removes_no_lines (t : Trunkater) (hp : t._prompt = "") :
    t.shrink.deleted_lines = t.deleted_lines ∧
    (¬(t.is_visible = true ∧ t.start_trunkate_iteration ≤ t.shrink_calls) →
      t.shrink._prompt = "") ∧
    ((t.is_visible = true ∧ t.start_trunkate_iteration ≤ t.shrink_calls) →
      t.shrink._prompt = "\n... Deleted " ++ toString t.deleted_lines
        ++ " lines to reduce prompt size.") := by
  refine ⟨shrink_empty_deleted t hp, ?_, ?_⟩
  · intro h
    rw [shrink_of_not_trunc t h]
    exact hp
  · intro h
    exact shrink_empty_marker t hp h.1 h.2

/-- C4 witness: the amended theorem applied to the empty-text fragment at
its threshold. -/
theorem empty_shrink_removes_no_lines_witness :
    tDemoEmpty._prompt = "" ∧
    (tDemoEmpty.shrink.deleted_lines = tDemoEmpty.deleted_lines ∧
     (¬(tDemoEmpty.is_visible = true
          ∧ tDemoEmpty.start_trunkate_iteration ≤ tDemoEmpty.shrink_calls) →
       tDemoEmpty.shrink._prompt = "") ∧
     ((tDemoEmpty.is_visible = true
          ∧ tDemoEmpty.start_trunkate_iteration ≤ tDemoEmpty.shrink_calls) →
       tDemoEmpty.shrink._prompt = "\n... Deleted " ++ toString tDemoEmpty.deleted_lines
         ++ " lines to reduce prompt size.")) :=
  ⟨rfl, empty_shrink_removes_no_lines tDemoEmpty rfl⟩

/-- C5 counterexample: for a freshly constructed always-visible fragment
over a one-line text with threshold 10, the line count after shrink call
10 + 1 is strictly greater than the line count after shrink call 10,
although 10 is at the threshold: the first truncating call keeps 0 original
lines but produces a leading empty line plus the marker line. -/
theorem lineCount_regrows_cex :
    tDemoOne.start_trunkate_iteration ≤ 10 ∧
    lineCount (Trunkater.shrink^[10] tDemoOne)._prompt
      < lineCount (Trunkater.shrink^[10 + 1] tDemoOne)._prompt := by
  have h10 : Trunkater.shrink^[10] tDemoOne
      = Trunkater.mk true (3 / 10) 10 10 0 "x" := by
    rw [iterate_shrink_noop 10 tDemoOne rfl (by decide)]
    rfl
  have h11 : Trunkater.shrink^[10 + 1] tDemoOne
      = (Trunkater.mk true (3 / 10) 10 10 0 "x").shrink := by
    rw [Function.iterate_succ_apply', h10]
  refine ⟨by decide, ?_⟩
  rw [h10, h11, lineCount_shrink_of_trunc (Trunkater.mk true (3 / 10) 10 10 0 "x") rfl
    (by decide)]
  dsimp only
  have hz : pyInt (((pySplitlines ("x" : String)).length : ℚ) * (1 - (3 / 10 : ℚ))) = 0 := by
    have h1 : (pySplitlines ("x" : String)).length = 1 := by decide
    rw [h1, pyInt_floor_of_le_one 1 (3 / 10) (by norm_num)]
    norm_num
  rw [hz]
  decide

/-- C5 (amended): for an always-visible truncating fragment with positive
shrink fraction, counting shrink calls from construction, the line count
after shrink call k+1 is at most the line count after shrink call k for
every k strictly past the threshold (so that the state after call k has
already been truncated once); at k equal to the threshold the text can
regrow, as the counterexample shows. -/
theorem lineCount_monotone_after_first_trunc (t : Trunkater) (k : ℕ)
    (h0 : t.shrink_calls = 0) (hv : t.is_visible = true) (hf : 0 < t.shrink_speed)
    (hk : t.start_trunkate_iteration < k) :
    lineCount (Trunkater.shrink^[k + 1] t)._prompt
      ≤ lineCount (Trunkater.shrink^[k] t)._prompt := by
  obtain ⟨hv1, hs1, hst1, hc1⟩ := iterate_shrink_fields k t
  obtain ⟨k', rfl⟩ : ∃ k', k = k' + 1 := ⟨k - 1, by omega⟩
  obtain ⟨hv2, hs2, hst2, hc2⟩ := iterate_shrink_fields k' t
  have h2 : 2 ≤ lineCount (Trunkater.shrink^[k' + 1] t)._prompt := by
    rw [Function.iterate_succ_apply']
    exact two_le_lineCount_shrink _ (by rw [hv2]; exact hv)
      (by rw [hst2, hc2, h0]; omega)
  rw [Function.iterate_succ_apply' Trunkater.shrink (k' + 1) t]
  exact lineCount_shrink_le _ (by rw [hv1]; exact hv)
    (by rw [hst1, hc1, h0]; omega) (by rw [hs1]; exact hf) h2

/-- C5 witness: the amended theorem applied to the one-line fragment with
k = 11, one call past its threshold 10. -/
theorem lineCount_monotone_after_first_trunc_witness :
    tDemoOne.shrink_calls = 0 ∧ tDemoOne.is_visible = true ∧
    0 < tDemoOne.shrink_speed ∧ tDemoOne.start_trunkate_iteration < 11 ∧
    lineCount (Trunkater.shrink^[11 + 1] tDemoOne)._prompt
      ≤ lineCount (Trunkater.shrink^[11] tDemoOne)._prompt :=
  ⟨rfl, rfl, by norm_num [tDemoOne], by decide,
    lineCount_monotone_after_first_trunc tDemoOne 11 rfl rfl (by norm_num [tDemoOne])
      (by decide)⟩

/-- C7: a shrink call leaves the text unchanged whenever the fragment is
invisible or the call counter is still below the fragment-specific
threshold, and that threshold is 5 for page-markup (HTML) fragments and 10
for accessibility-tree fragments. -/
theorem shrink_noop_conditions :
    (∀ t : Trunkater,
      (t.is_visible = false ∨ t.shrink_calls < t.start_trunkate_iteration) →
        t.shrink._prompt = t._prompt) ∧
    (∀ (html : String) (visible : Bool) (pfx : String),
      (mkHTML html visible pfx).start_trunkate_iteration = 5) ∧
    (∀ (ax : String) (visible : Bool) (ct : Option String) (pfx : String),
      (mkAXTree ax visible ct pfx).start_trunkate_iteration = 10) := by
  refine ⟨?_, fun _ _ _ => rfl, fun _ _ _ _ => rfl⟩
  intro t h
  rw [shrink_of_not_trunc t ?_]
  rcases h with h | h
  · intro hc
    rw [h] at hc
    exact absurd hc.1 (by simp)
  · intro hc
    omega

/-- C7 witness: the no-op direction applied to an invisible fragment, plus
the two concrete thresholds. -/
theorem shrink_noop_conditions_witness :
    (tDemoHidden.is_visible = false
        ∨ tDemoHidden.shrink_calls < tDemoHidden.start_trunkate_iteration) ∧
    tDemoHidden.shrink._prompt = tDemoHidden._prompt ∧
    (mkHTML "h" true "").start_trunkate_iteration = 5 ∧
    (mkAXTree "a" true none "").start_trunkate_iteration = 10 :=
  ⟨Or.inl rfl, shrink_noop_conditions.1 tDemoHidden (Or.inl rfl),
    shrink_noop_conditions.2.1 "h" true "", shrink_noop_conditions.2.2 "a" true none ""⟩

/-- C8: a prompt fragment whose visibility flag evaluates to false renders
as the empty string for the prompt text, the abstract example and the
concrete example, whatever its underlying text or shrink state. -/
theorem invisible_renders_empty :
    (∀ e : PromptElement, e.is_visible = false →
      e.prompt = "" ∧ e.abstract_ex = "" ∧ e.concrete_ex = "") ∧
    (∀ t : Trunkater, t.is_visible = false → t.prompt = "") := by
  constructor
  · intro e h
    refine ⟨?_, ?_, ?_⟩ <;>
      simp [PromptElement.prompt, PromptElement.abstract_ex, PromptElement.concrete_ex,
        PromptElement._hide, h]
  · intro t h
    simp [Trunkater.prompt, h]

/-- C8 witness: an invisible error fragment and an invisible trunkater both
render empty. -/
theorem invisible_renders_empty_witness :
    (mkError "oops" false "## ").is_visible = false ∧
    ((mkError "oops" false "## ").prompt = ""
      ∧ (mkError "oops" false "## ").abstract_ex = ""
      ∧ (mkError "oops" false "## ").concrete_ex = "") ∧
    tDemoHidden.is_visible = false ∧ tDemoHidden.prompt = "" :=
  ⟨rfl, invisible_renders_empty.1 (mkError "oops" false "## ") rfl,
    rfl, invisible_renders_empty.2 tDemoHidden rfl⟩

/-- C10: every shrink call increments the shrink-call counter by exactly
one, including invisible and pre-threshold calls; consequently a fragment
that stayed invisible for n calls with n at least its threshold starts
deleting lines on its very first visible shrink call (for a non-empty text
and positive shrink fraction). -/
theorem shrink_counts_every_call :
    (∀ t : Trunkater, t.shrink.shrink_calls = t.shrink_calls + 1) ∧
    (∀ (t : Trunkater) (n : ℕ), t.is_visible = false →
      t.start_trunkate_iteration ≤ t.shrink_calls + n →
      0 < t.shrink_speed → t._prompt ≠ "" →
      t.deleted_lines
        < (setVisible (Trunkater.shrink^[n] t)).shrink.deleted_lines) := by
  constructor
  · exact shrink_calls_succ
  · intro t n hv hn hf hp
    rw [iterate_shrink_invisible n t hv]
    rw [show setVisible { t with shrink_calls := t.shrink_calls + n }
      = Trunkater.mk true t.shrink_speed t.start_trunkate_iteration
          (t.shrink_calls + n) t.deleted_lines t._prompt from rfl]
    rw [shrink_of_trunc (Trunkater.mk true t.shrink_speed t.start_trunkate_iteration
      (t.shrink_calls + n) t.deleted_lines t._prompt) rfl hn]
    show t.deleted_lines < t.deleted_lines
      + (((pySplitlines t._prompt).length : ℤ)
          - pyInt (((pySplitlines t._prompt).length : ℚ) * (1 - t.shrink_speed)))
    have hN := one_le_length_pySplitlines t._prompt hp
    have hk := pyInt_le_sub_one (pySplitlines t._prompt).length t.shrink_speed hN hf
    omega

/-- C10 witness: the counter increment on the hidden demo fragment, and the
first visible call of that fragment after ten invisible calls (its
threshold) deleting a line. -/
theorem shrink_counts_every_call_witness :
    tDemoHidden.shrink.shrink_calls = tDemoHidden.shrink_calls + 1 ∧
    tDemoHidden.is_visible = false ∧
    tDemoHidden.start_trunkate_iteration ≤ tDemoHidden.shrink_calls + 10 ∧
    0 < tDemoHidden.shrink_speed ∧ tDemoHidden._prompt ≠ "" ∧
    tDemoHidden.deleted_lines
      < (setVisible (Trunkater.shrink^[10] tDemoHidden)).shrink.deleted_lines :=
  ⟨shrink_counts_every_call.1 tDemoHidden, rfl, by decide, by norm_num [tDemoHidden],
    by decide,
    shrink_counts_every_call.2 tDemoHidden 10 rfl (by decide) (by norm_num [tDemoHidden])
      (by decide)⟩

/-- C1: with sequence lengths O = S + 1 and S = T, the constructor selects
encoding mode: the current-step text is the rendering of only the latest
observation (its accessibility tree and error banner — no state or strategy
enters it), and the history block is rebuilt from only the last 3 entries of
states, strategies and actions. -/
theorem encoding_mode_selects_obs_only (obs_history : List Obs)
    (states strategies actions : List String) (active_strategy : Option String)
    (o : Obs)
    (h1 : obs_history.length = states.length + 1)
    (h2 : states.length = strategies.length)
    (ho : obs_history.getLast? = some o) :
    mkMyMainPrompt obs_history states strategies actions active_strategy
      = some { history := historyString (takeLast 3 states) (takeLast 3 strategies)
                            (takeLast 3 actions)
               obs := some (get_obs o) } := by
  have hfull : get_history states strategies actions
      = some (historyString states strategies actions) := by
    unfold get_history
    rw [if_pos (Or.inl h2)]
  have hwin : get_history (takeLast 3 states) (takeLast 3 strategies) (takeLast 3 actions)
      = some (historyString (takeLast 3 states) (takeLast 3 strategies)
          (takeLast 3 actions)) := by
    unfold get_history
    rw [if_pos (Or.inl (by simp [takeLast, h2]))]
  unfold mkMyMainPrompt
  rw [hfull, Option.some_bind, if_pos ⟨h1, h2⟩, ho, Option.some_bind, hwin,
    Option.some_bind]

/-- C1 witness: the theorem applied to the O=3, S=2, T=2, A=1 example. -/
theorem encoding_mode_selects_obs_only_witness :
    obsDemo3.length = stsDemo2.length + 1 ∧
    stsDemo2.length = stratsDemo2.length ∧
    obsDemo3.getLast? = some oDemoLast ∧
    mkMyMainPrompt obsDemo3 stsDemo2 stratsDemo2 actsDemo1 none
      = some { history := historyString (takeLast 3 stsDemo2) (takeLast 3 stratsDemo2)
                            (takeLast 3 actsDemo1)
               obs := some (get_obs oDemoLast) } :=
  ⟨rfl, rfl, rfl,
    encoding_mode_selects_obs_only obsDemo3 stsDemo2 stratsDemo2 actsDemo1 none
      oDemoLast rfl rfl rfl⟩

/-- C6: with sequence lengths O = S, S = T + 1 and T = A, the constructor
selects strategy mode: the current-step text renders the latest observation
together with the latest state (and nothing of the strategies). -/
theorem strategy_mode_obs_state (obs_history : List Obs)
    (states strategies actions : List String) (active_strategy : Option String)
    (o : Obs) (st : String)
    (h1 : obs_history.length = states.length)
    (h2 : states.length = strategies.length + 1)
    (h3 : strategies.length = actions.length)
    (ho : obs_history.getLast? = some o)
    (hst : states.getLast? = some st) :
    mkMyMainPrompt obs_history states strategies actions active_strategy
      = some { history := historyString states strategies actions
               obs := some (get_obs_state o st) } := by
  have hfull : get_history states strategies actions
      = some (historyString states strategies actions) := by
    unfold get_history
    rw [if_pos (Or.inr h2)]
  unfold mkMyMainPrompt
  rw [hfull, Option.some_bind, if_neg (by omega), if_pos ⟨h1, h2, h3⟩, ho,
    Option.some_bind, hst, Option.some_bind]

/-- C6 witness: the theorem applied to the O=2, S=2, T=1, A=1 example. -/
theorem strategy_mode_obs_state_witness :
    obsDemo2.length = stsDemo2.length ∧
    stsDemo2.length = stratsDemo1.length + 1 ∧
    stratsDemo1.length = actsDemo1.length ∧
    obsDemo2.getLast? = some oDemo2Last ∧
    stsDemo2.getLast? = some "state two" ∧
    mkMyMainPrompt obsDemo2 stsDemo2 stratsDemo1 actsDemo1 none
      = some { history := historyString stsDemo2 stratsDemo1 actsDemo1
               obs := some (get_obs_state oDemo2Last "state two") } :=
  ⟨rfl, rfl, rfl, rfl, rfl,
    strategy_mode_obs_state obsDemo2 stsDemo2 stratsDemo1 actsDemo1 none
      oDemo2Last "state two" rfl rfl rfl rfl rfl⟩

/-- C3 counterexample: for lengths O=0, S=0, T=1, A=0 none of the five mode
predicates holds, yet constructing the main prompt raises (the history
assertion `S = T or S = T + 1` fails), so construction is not error-free for
every unmatched length combination. -/
theorem unmatched_mode_raises_cex :
    ¬(([] : List Obs).length = ([] : List String).length + 1
        ∧ ([] : List String).length = ["strat one"].length) ∧
    ¬(([] : List Obs).length = ([] : List String).length
        ∧ ([] : List String).length = ["strat one"].length + 1
        ∧ ["strat one"].length = ([] : List String).length) ∧
    ¬(([] : List Obs).length = ([] : List String).length
        ∧ ([] : List String).length = ["strat one"].length
        ∧ ["strat one"].length = ([] : List String).length + 1) ∧
    ¬(([] : List Obs).length ≤ ([] : List String).length
        ∧ ([] : List String).length = ["strat one"].length
        ∧ ([] : List String).length + 1 ≤ ["strat one"].length) ∧
    ¬(([] : List Obs).length < ([] : List String).length
        ∧ ([] : List String).length = ["strat one"].length + 1) ∧
    mkMyMainPrompt [] [] ["strat one"] [] none = none := by
  refine ⟨by decide, by decide, by decide, by decide, by decide, ?_⟩
  rfl

/-- C3 (amended): when the sequence lengths satisfy none of the five mode
predicates, the constructor produces no current-step text; it raises no
error provided the history assertion S = T or S = T + 1 holds (otherwise
construction raises, as the counterexample shows). -/
theorem unmatched_mode_no_obs (obs_history : List Obs)
    (states strategies actions : List String) (active_strategy : Option String)
    (hA : states.length = strategies.length
        ∨ states.length = strategies.length + 1)
    (h1 : ¬(obs_history.length = states.length + 1
        ∧ states.length = strategies.length))
    (h2 : ¬(obs_history.length = states.length
        ∧ states.length = strategies.length + 1
        ∧ strategies.length = actions.length))
    (h3 : ¬(obs_history.length = states.length
        ∧ states.length = strategies.length
        ∧ strategies.length = actions.length + 1))
    (h4 : ¬(obs_history.length ≤ states.length
        ∧ states.length = strategies.length
        ∧ actions.length + 1 ≤ strategies.length))
    (h5 : ¬(obs_history.length < states.length
        ∧ states.length = strategies.length + 1)) :
    (mkMyMainPrompt obs_history states strategies actions active_strategy).map
        MyMainPrompt.obs
      = some none := by
  have hfull : get_history states strategies actions
      = some (historyString states strategies actions) := by
    unfold get_history
    rw [if_pos hA]
  unfold mkMyMainPrompt
  rw [hfull, Option.some_bind, if_neg h1, if_neg h2, if_neg h3, if_neg h4, if_neg h5]
  rfl

/-- C3 witness: the amended theorem applied to lengths O=1, S=1, T=1, A=1,
which match no mode predicate but pass the history assertion: construction
succeeds and the current-step text is unset. -/
theorem unmatched_mode_no_obs_witness :
    (stsDemo2.take 1).length = (stratsDemo1.take 1).length ∧
    ¬((obsDemo2.take 1).length = (stsDemo2.take 1).length + 1
        ∧ (stsDemo2.take 1).length = (stratsDemo1.take 1).length) ∧
    ¬((obsDemo2.take 1).length = (stsDemo2.take 1).length
        ∧ (stsDemo2.take 1).length = (stratsDemo1.take 1).length + 1
        ∧ (stratsDemo1.take 1).length = (actsDemo1.take 1).length) ∧
    ¬((obsDemo2.take 1).length = (stsDemo2.take 1).length
        ∧ (stsDemo2.take 1).length = (stratsDemo1.take 1).length
        ∧ (stratsDemo1.take 1).length = (actsDemo1.take 1).length + 1) ∧
    ¬((obsDemo2.take 1).length ≤ (stsDemo2.take 1).length
        ∧ (stsDemo2.take 1).length = (stratsDemo1.take 1).length
        ∧ (actsDemo1.take 1).length + 1 ≤ (stratsDemo1.take 1).length) ∧
    ¬((obsDemo2.take 1).length < (stsDemo2.take 1).length
        ∧ (stsDemo2.take 1).length = (stratsDemo1.take 1).length + 1) ∧
    (mkMyMainPrompt (obsDemo2.take 1) (stsDemo2.take 1) (stratsDemo1.take 1)
        (actsDemo1.take 1) none).map MyMainPrompt.obs = some none :=
  ⟨rfl, by decide, by decide, by decide, by decide, by decide,
    unmatched_mode_no_obs (obsDemo2.take 1) (stsDemo2.take 1) (stratsDemo1.take 1)
      (actsDemo1.take 1) none (Or.inl rfl) (by decide) (by decide) (by decide)
      (by decide) (by decide)⟩

/-- C9: when the reply text contains a well-formed action tag whose
extracted content compiles against the action space, action extraction
succeeds and returns the raw extracted text unchanged (the compiled form is
discarded); when compilation fails, it raises a parse failure wrapping the
underlying error message together with the remediation hint. -/
theorem parse_action_roundtrip (to_python_code : String → Except String String)
    (reply act : String)
    (hext : parse_html_tags_raise_one "action" reply = Except.ok act) :
    (∀ code, to_python_code act = Except.ok code →
       parse_answer to_python_code reply = Except.ok act) ∧
    (∀ e, to_python_code act = Except.error e →
       parse_answer to_python_code reply = Except.error
         ("Error while parsing action\n: " ++ e
           ++ "\nMake sure your answer is restricted to the allowed actions.")) := by
  constructor
  · intro code hc
    simp only [parse_answer, hext, hc]
  · intro e hc
    simp only [parse_answer, hext, hc]

/-- C9 witness: the round-trip of the example reply (with a compiling click
action, returned verbatim), and the failure path wrapping the compile error
of an unrecognized action. -/
theorem parse_action_roundtrip_witness :
    parse_html_tags_raise_one "action" "<action>click(\x2741\x27)</action>"
      = Except.ok "click(\x2741\x27)" ∧
    compileDemo "click(\x2741\x27)" = Except.ok "page.click(bid=41)" ∧
    parse_answer compileDemo "<action>click(\x2741\x27)</action>"
      = Except.ok "click(\x2741\x27)" ∧
    parse_answer compileDemo "<action>clack</action>"
      = Except.error ("Error while parsing action\n: "
          ++ "Invalid action type: clack"
          ++ "\nMake sure your answer is restricted to the allowed actions.") :=
  ⟨rfl, rfl,
    (parse_action_roundtrip compileDemo "<action>click(\x2741\x27)</action>"
        "click(\x2741\x27)" rfl).1 "page.click(bid=41)" rfl,
    (parse_action_roundtrip compileDemo "<action>clack</action>" "clack"
        rfl).2 "Invalid action type: clack" rfl⟩

end WMAgent
